import Mathlib

/-!
Verification of the region/geometry core of `gmft/table_detection.py`:
the table-region entity model (`CroppedTable`, `RotatedCroppedTable`),
its rotation-aware coordinate transforms, text-position filtering,
line reconstruction (`position_words`), word-height calibration,
caption caching, serialization, and detector orchestration.

Coordinates are embedded as rationals (`ℚ`); page and detection-model
collaborators are embedded as plain data (a page is its word list plus
identifying metadata); the stateful caches of `CroppedTable` are
embedded by explicit state passing (each cache-touching method returns
its result together with the updated table).
-/

/-- A word on a page: a box `(x0, y0, x1, y1)` together with its text. -/
structure Word where
  x0 : ℚ
  y0 : ℚ
  x1 : ℚ
  y1 : ℚ
  text : String
deriving DecidableEq, Repr

/-- Modelled from the spec: the page collaborator capability.
`gmft.pdf_bindings.common.BasePage` is not under `src/`; per the spec it
supplies `get_positions_and_text()` (the whole page's words in reading
order), `get_filename()` and a `page_number` attribute. -/
structure BasePage where
  filename : String
  page_number : ℤ
  words : List Word
deriving DecidableEq, Repr

/-- Modelled from the spec: `gmft.common.Rect` is not under `src/`.
Per the spec it is an axis-aligned rectangle value type with
`xmin ≤ xmax`, `ymin ≤ ymax` expected, and derived width/height. -/
structure Rect where
  xmin : ℚ
  ymin : ℚ
  xmax : ℚ
  ymax : ℚ
deriving DecidableEq, Repr

def Rect.ofBBox (b : ℚ × ℚ × ℚ × ℚ) : Rect :=
  ⟨b.1, b.2.1, b.2.2.1, b.2.2.2⟩

def Rect.bbox (r : Rect) : ℚ × ℚ × ℚ × ℚ :=
  (r.xmin, r.ymin, r.xmax, r.ymax)

def Rect.width (r : Rect) : ℚ := r.xmax - r.xmin

def Rect.height (r : Rect) : ℚ := r.ymax - r.ymin

/-- Modelled from the spec: `Rect.is_intersecting` is not under `src/`.
Per the spec it is the standard rectangle-overlap test, boundary
inclusive: touching edges count as intersecting. -/
def Rect.is_intersecting (a b : Rect) : Bool :=
  decide (a.xmin ≤ b.xmax ∧ b.xmin ≤ a.xmax ∧ a.ymin ≤ b.ymax ∧ b.ymin ≤ a.ymax)

/-- `position_words` of `table_detection.py`: converts a list of words
with positions to a string, starting from the first word's text and
inserting a line break before a word whose bottom edge differs from the
previous word's bottom edge by at least `y_gap` (default 3), otherwise a
space; `prev_bottom` is updated to each word's bottom in turn. -/
def position_words (words : List Word) (y_gap : ℚ) : String :=
  match words with
  | [] => ""
  | first :: rest =>
    (rest.foldl
      (fun (acc : String × ℚ) w =>
        if |w.y1 - acc.2| ≥ y_gap then (acc.1 ++ "\n" ++ w.text, w.y1)
        else (acc.1 ++ " " ++ w.text, w.y1))
      (first.text, first.y1)).1

/-- `CroppedTable`: a pdf selection cropped to include just a table.
`word_height` and `captionsCache` embed the lazily populated caches
`_word_height` and `_captions` (`none` = Python `None`; for the word
height, the inner `Option` uses `none` for the `np.nan` sentinel). -/
structure CroppedTable where
  page : BasePage
  rect : Rect
  confidence_score : ℚ
  label : ℤ
  word_height : Option (Option ℚ)
  captionsCache : Option (List String)
deriving DecidableEq, Repr

/-- `CroppedTable.__init__`: stores page, rect (from bbox), confidence
score and label; all caches start out `None`. -/
def CroppedTable.init (page : BasePage) (bbox : ℚ × ℚ × ℚ × ℚ)
    (confidence_score : ℚ) (label : ℤ) : CroppedTable :=
  ⟨page, Rect.ofBBox bbox, confidence_score, label, none, none⟩

/-- `CroppedTable.text_positions`: words of the page whose box intersects
the table's rect (or the complement when `outside`), optionally
translated so the table's top-left corner becomes `(0,0)`. -/
def CroppedTable.text_positions (t : CroppedTable)
    (remove_table_offset : Bool) (outside : Bool) : List Word :=
  (t.page.words.filter
      (fun w => (Rect.ofBBox (w.x0, w.y0, w.x1, w.y1)).is_intersecting t.rect != outside)).map
    (fun w =>
      if remove_table_offset then
        ⟨w.x0 - t.rect.xmin, w.y0 - t.rect.ymin, w.x1 - t.rect.xmin, w.y1 - t.rect.ymin, w.text⟩
      else w)

/-- `CroppedTable.text`: line reconstruction over the page-space text
positions, with the default `y_gap = 3`. -/
def CroppedTable.text (t : CroppedTable) : String :=
  position_words (t.text_positions false false) 3

/-- Modelled from the spec: `np.median` (numpy is an external
collaborator). Per the spec's word-height policy, the median of an
even-length list is the average of the two middle elements of the
sorted list. -/
def np_median (xs : List ℚ) : ℚ :=
  let s := List.insertionSort (fun a b => a ≤ b) xs
  let n := s.length
  if n % 2 = 1 then s.getD (n / 2) 0
  else (s.getD (n / 2 - 1) 0 + s.getD (n / 2) 0) / 2

/-- `CroppedTable.predicted_word_height`: on a cache hit the source
asserts `self._word_height != 0` before returning the cached value
(the `np.nan` sentinel passes, a cached zero raises); on a cache miss
it collects the heights of offset-removed text positions strictly
greater than `smallest_supported_text_height`, caches `0.95 × median`
of them (`none` = `np.nan` when none qualify) and asserts
`self._word_height > 0` before returning. A failed assert raises
`AssertionError`, embedded as `.error`. -/
def CroppedTable.predicted_word_height (t : CroppedTable)
    (smallest_supported_text_height : ℚ) :
    Except String (Option ℚ × CroppedTable) :=
  match t.word_height with
  | some wh =>
    if wh = some 0 then .error "AssertionError: self._word_height != 0"
    else .ok (wh, t)
  | none =>
    let word_heights := (t.text_positions true false).filterMap
      (fun w => if w.y1 - w.y0 > smallest_supported_text_height then some (w.y1 - w.y0) else none)
    if word_heights = [] then
      .ok (none, { t with word_height := some none })
    else
      let v := (95 / 100 : ℚ) * np_median word_heights
      if v > 0 then .ok (some v, { t with word_height := some (some v) })
      else .error "AssertionError: self._word_height > 0"

/-- `CroppedTable.captions`: `_find_captions` (an external collaborator,
`gmft.table_captioning`) is passed in as a function. The cached value is
returned when it is truthy (non-`None`, non-empty) and
`margin is None or line_spacing == 2.5`; otherwise the finder is called
and its result cached. -/
def CroppedTable.captions (t : CroppedTable)
    (find_captions : Option (ℚ × ℚ × ℚ × ℚ) → ℚ → List String)
    (margin : Option (ℚ × ℚ × ℚ × ℚ)) (line_spacing : ℚ) :
    List String × CroppedTable :=
  match t.captionsCache with
  | some c =>
    if c ≠ [] ∧ (margin = none ∨ line_spacing = 5 / 2) then (c, t)
    else
      let r := find_captions margin line_spacing
      (r, { t with captionsCache := some r })
  | none =>
    let r := find_captions margin line_spacing
    (r, { t with captionsCache := some r })

/-- `RotatedCroppedTable`: a table rotated by `angle` degrees
counterclockwise relative to a level image; `rect`/`bbox` stay in the
original pdf's coordinates. -/
structure RotatedCroppedTable extends CroppedTable where
  angle : ℚ
deriving DecidableEq, Repr

/-- `RotatedCroppedTable.__init__`: calls the base constructor and then
raises `ValueError("Only 0, 90, 180, 270 are supported.")` for any other
angle, so no object is produced for an unsupported angle. -/
def RotatedCroppedTable.init (page : BasePage) (bbox : ℚ × ℚ × ℚ × ℚ)
    (confidence_score : ℚ) (angle : ℚ) (label : ℤ) :
    Except String RotatedCroppedTable :=
  if angle = 0 ∨ angle = 90 ∨ angle = 180 ∨ angle = 270 then
    .ok { toCroppedTable := CroppedTable.init page bbox confidence_score label, angle := angle }
  else
    .error "Only 0, 90, 180, 270 are supported."

/-- The box remapping applied by `RotatedCroppedTable.text_positions`
for `angle == 90`: `(x0, y0, x1, y1) ↦ (h − y1, x0, h − y0, x1)` with
`h` the region rect's height. -/
def transform90 (h : ℚ) (w : Word) : Word :=
  ⟨h - w.y1, w.x0, h - w.y0, w.x1, w.text⟩

/-- The box remapping applied by `RotatedCroppedTable.text_positions`
for `angle == 180`: `(x0, y0, x1, y1) ↦ (wd − x1, h − y1, wd − x0, h − y0)`
with `wd`/`h` the region rect's width/height. -/
def transform180 (wd h : ℚ) (w : Word) : Word :=
  ⟨wd - w.x1, h - w.y1, wd - w.x0, h - w.y0, w.text⟩

/-- The box remapping applied by `RotatedCroppedTable.text_positions`
for `angle == 270`: `(x0, y0, x1, y1) ↦ (y0, wd − x1, y1, wd − x0)` with
`wd` the region rect's width. -/
def transform270 (wd : ℚ) (w : Word) : Word :=
  ⟨w.y0, wd - w.x1, w.y1, wd - w.x0, w.text⟩

/-- `RotatedCroppedTable.text_positions`: identical to the base class
when `angle == 0` or `remove_table_offset == False`; otherwise the
offset-removed base positions remapped through the angle's transform.
(An angle outside the supported set cannot be hit from the validated
constructor; the Python generator would yield nothing there.) -/
def RotatedCroppedTable.text_positions (t : RotatedCroppedTable)
    (remove_table_offset : Bool) (outside : Bool) : List Word :=
  if t.angle = 0 ∨ remove_table_offset = false then
    t.toCroppedTable.text_positions remove_table_offset outside
  else if t.angle = 90 then
    (t.toCroppedTable.text_positions true outside).map (transform90 t.rect.height)
  else if t.angle = 180 then
    (t.toCroppedTable.text_positions true outside).map (transform180 t.rect.width t.rect.height)
  else if t.angle = 270 then
    (t.toCroppedTable.text_positions true outside).map (transform270 t.rect.width)
  else []

/-- The serialized record (`to_dict` output / `from_dict` input):
`{filename, page_no, bbox, confidence_score, label, angle?, captions?}`.
`angle` is present exactly for rotated tables; `captions` embeds the
optional `captions` key read by `from_dict`. -/
structure TableDict where
  filename : String
  page_no : ℤ
  bbox : ℚ × ℚ × ℚ × ℚ
  confidence_score : ℚ
  label : ℤ
  angle : Option ℚ
  captions : Option (List String)
deriving DecidableEq, Repr

/-- `CroppedTable.to_dict`: filename, page number, bbox, confidence
score and label; no `angle` key (and no captions embedded). -/
def CroppedTable.to_dict (t : CroppedTable) : TableDict :=
  ⟨t.page.filename, t.page.page_number, t.rect.bbox, t.confidence_score, t.label, none, none⟩

/-- `RotatedCroppedTable.to_dict`: the base record plus the angle. -/
def RotatedCroppedTable.to_dict (t : RotatedCroppedTable) : TableDict :=
  { t.toCroppedTable.to_dict with angle := some t.angle }

/-- The deserialized variant: a plain `CroppedTable` or a
`RotatedCroppedTable`. -/
inductive Table where
  | plain : CroppedTable → Table
  | rotated : RotatedCroppedTable → Table
deriving DecidableEq, Repr

/-- `CroppedTable.from_dict` (together with the mutually dispatching
`RotatedCroppedTable.from_dict`): a record with an `angle` key is
deserialized through the rotated constructor (whose angle validation
may raise); a record without one always yields a plain `CroppedTable`.
Both set `_captions` to the record's captions, defaulting to `[]`. -/
def CroppedTable.from_dict (d : TableDict) (page : BasePage) : Except String Table :=
  match d.angle with
  | some a =>
    (RotatedCroppedTable.init page d.bbox d.confidence_score a d.label).map
      (fun t => Table.rotated { t with captionsCache := some (d.captions.getD []) })
  | none =>
    .ok (Table.plain
      { CroppedTable.init page d.bbox d.confidence_score d.label with
          captionsCache := some (d.captions.getD []) })

/-- One raw detection from the external detection model: a box in image
pixel coordinates, a confidence score, and an integer label. -/
structure Detection where
  bbox : ℚ × ℚ × ℚ × ℚ
  score : ℚ
  label : ℤ
deriving DecidableEq, Repr

/-- The region-construction loop of `TableDetector.extract`: one region
per post-processed detection, in order; label 1 produces a
`RotatedCroppedTable` with angle 90 (and that label), any other label a
plain `CroppedTable` with the label preserved. -/
def TableDetector.extract (page : BasePage) (results : List Detection) : List Table :=
  results.map
    (fun r =>
      if r.label = 1 then
        Table.rotated
          { toCroppedTable := CroppedTable.init page r.bbox r.score r.label, angle := 90 }
      else
        Table.plain (CroppedTable.init page r.bbox r.score r.label))

/-- The line-reconstruction algorithm as the spec words it (for the
refinement check of `position_words`): accumulate the first word's
text, then for each subsequent word emit a line break before its text
when the absolute difference of bottoms is ≥ `y_gap`, else a single
space, tracking the previous bottom as the most recently appended
word's bottom. -/
def position_words_spec_go (y_gap : ℚ) (acc : String) (prev_bottom : ℚ) :
    List Word → String
  | [] => acc
  | w :: ws =>
    position_words_spec_go y_gap
      (if |w.y1 - prev_bottom| ≥ y_gap then acc ++ "\n" ++ w.text else acc ++ " " ++ w.text)
      w.y1 ws

/-- Spec-level line reconstruction: empty input yields the empty
string; otherwise start from the first word. -/
def position_words_spec (words : List Word) (y_gap : ℚ) : String :=
  match words with
  | [] => ""
  | first :: rest => position_words_spec_go y_gap first.text first.y1 rest

/-- Sample page: four words of heights 1, 1, 2, 100. -/
def samplePage : BasePage :=
  ⟨"sample.pdf", 0,
    [⟨0, 0, 5, 1, "a"⟩, ⟨0, 2, 5, 3, "b"⟩, ⟨0, 4, 5, 6, "c"⟩, ⟨0, 7, 5, 107, "d"⟩]⟩

/-- Sample plain table covering the whole sample page. -/
def sampleTable : CroppedTable :=
  CroppedTable.init samplePage (0, 0, 200, 200) (9 / 10) 0

/-- Sample rotated table (angle 90) over the sample page. -/
def sampleRot90 : RotatedCroppedTable :=
  { toCroppedTable := sampleTable, angle := 90 }

/-- Sample serialized record without an `angle` key. -/
def sampleDict : TableDict :=
  ⟨"sample.pdf", 0, (0, 0, 200, 200), 9 / 10, 0, none, none⟩

/-- Sample detector output: one rotated detection, one plain. -/
def sampleDetections : List Detection :=
  [⟨(0, 0, 1, 1), 19 / 20, 1⟩, ⟨(2, 2, 3, 3), 1 / 2, 0⟩]

theorem Rect.ofBBox_bbox (r : Rect) : Rect.ofBBox r.bbox = r := by
  cases r
  rfl

theorem RotatedCroppedTable.init_ok (page : BasePage) (bbox : ℚ × ℚ × ℚ × ℚ)
    (score angle : ℚ) (label : ℤ)
    (h : angle = 0 ∨ angle = 90 ∨ angle = 180 ∨ angle = 270) :
    RotatedCroppedTable.init page bbox score angle label =
      .ok { toCroppedTable := CroppedTable.init page bbox score label, angle := angle } := by
  unfold RotatedCroppedTable.init
  rw [if_pos h]

/-- C1: the three box remappings used by `RotatedCroppedTable.text_positions`
are mutual inverses of the corresponding image rotations: for any box,
the angle-θ transform followed by the transform for `(360 − θ) mod 360`
(with the width/height parameters of the correspondingly rotated frame,
i.e. swapped for θ = 90 and θ = 270) returns the original box, for
θ ∈ {90, 180, 270}. -/
theorem rotation_transforms_mutual_inverses (wd h : ℚ) (w : Word) :
    transform270 h (transform90 h w) = w ∧
    transform180 wd h (transform180 wd h w) = w ∧
    transform90 wd (transform270 wd w) = w := by
  obtain ⟨x0, y0, x1, y1, s⟩ := w
  refine ⟨?_, ?_, ?_⟩ <;>
    simp [transform90, transform180, transform270, sub_sub_cancel]

theorem position_words_foldl_go (y_gap : ℚ) :
    ∀ (rest : List Word) (acc : String) (prev : ℚ),
      (rest.foldl
        (fun (a : String × ℚ) w =>
          if |w.y1 - a.2| ≥ y_gap then (a.1 ++ "\n" ++ w.text, w.y1)
          else (a.1 ++ " " ++ w.text, w.y1))
        (acc, prev)).1 = position_words_spec_go y_gap acc prev rest := by
  intro rest
  induction rest with
  | nil => intro acc prev; rfl
  | cons w ws ih =>
    intro acc prev
    by_cases hc : |w.y1 - prev| ≥ y_gap <;>
      simp [position_words_spec_go, hc, ih]

/-- C4: `position_words` reconstructs lines exactly as specified: start
from the first word's text, break the line before a word whose bottom
differs from the previous word's bottom by at least `y_gap` (else join
with a space), tracking the previous bottom as the last word's bottom;
empty input yields `""`; and the concrete example
`[(0,0,10,10,"A"), (12,0,20,10,"B"), (0,20,10,30,"C")]` with
`y_gap = 3` reconstructs to `"A B\nC"`. -/
theorem position_words_correct (words : List Word) (y_gap : ℚ) :
    position_words words y_gap = position_words_spec words y_gap ∧
    position_words [] y_gap = "" ∧
    position_words [⟨0, 0, 10, 10, "A"⟩, ⟨12, 0, 20, 10, "B"⟩, ⟨0, 20, 10, 30, "C"⟩] 3
      = "A B\nC" := by
  refine ⟨?_, rfl, ?_⟩
  · cases words with
    | nil => rfl
    | cons first rest => exact position_words_foldl_go y_gap rest first.text first.y1
  · simp only [position_words, List.foldl]
    norm_num
    rfl

/-- C8: for every table and both word subsets, translating the
offset-removed text positions back by `(rect.xmin, rect.ymin)`
reproduces the page-space text positions: offset removal is exactly the
translation of the region's top-left corner to the origin. -/
theorem text_positions_offset_round_trip (t : CroppedTable) (outside : Bool) :
    (t.text_positions true outside).map
        (fun w => ⟨w.x0 + t.rect.xmin, w.y0 + t.rect.ymin,
                   w.x1 + t.rect.xmin, w.y1 + t.rect.ymin, w.text⟩)
      = t.text_positions false outside := by
  simp only [CroppedTable.text_positions, if_true, Bool.false_eq_true, if_false, List.map_map]
  congr 1
  funext w
  simp [Function.comp, sub_add_cancel]

/-- C2: `RotatedCroppedTable.text_positions` with
`remove_table_offset = true` and nonzero angle yields each
offset-removed word box remapped by the angle-specific affine
transform (90: `(H−y1, x0, H−y0, x1)`; 180:
`(W−x1, H−y1, W−x0, H−y0)`; 270: `(y0, W−x1, y1, W−x0)`); with angle 0
or without offset removal it is identical to the base table's
text positions. -/
theorem rotated_text_positions_formula (t : RotatedCroppedTable) (outside : Bool) :
    (t.angle = 90 → t.text_positions true outside =
      (t.toCroppedTable.text_positions true outside).map
        (fun w => ⟨t.rect.height - w.y1, w.x0, t.rect.height - w.y0, w.x1, w.text⟩)) ∧
    (t.angle = 180 → t.text_positions true outside =
      (t.toCroppedTable.text_positions true outside).map
        (fun w => ⟨t.rect.width - w.x1, t.rect.height - w.y1,
                   t.rect.width - w.x0, t.rect.height - w.y0, w.text⟩)) ∧
    (t.angle = 270 → t.text_positions true outside =
      (t.toCroppedTable.text_positions true outside).map
        (fun w => ⟨w.y0, t.rect.width - w.x1, w.y1, t.rect.width - w.x0, w.text⟩)) ∧
    (t.angle = 0 → ∀ ro o2, t.text_positions ro o2 = t.toCroppedTable.text_positions ro o2) ∧
    (∀ o2, t.text_positions false o2 = t.toCroppedTable.text_positions false o2) := by
  refine ⟨?_, ?_, ?_, ?_, ?_⟩
  · intro h
    have : t.text_positions true outside =
        (t.toCroppedTable.text_positions true outside).map (transform90 t.rect.height) := by
      norm_num [RotatedCroppedTable.text_positions, h]
    rw [this]
    rfl
  · intro h
    have : t.text_positions true outside =
        (t.toCroppedTable.text_positions true outside).map
          (transform180 t.rect.width t.rect.height) := by
      norm_num [RotatedCroppedTable.text_positions, h]
    rw [this]
    rfl
  · intro h
    have : t.text_positions true outside =
        (t.toCroppedTable.text_positions true outside).map (transform270 t.rect.width) := by
      norm_num [RotatedCroppedTable.text_positions, h]
    rw [this]
    rfl
  · intro h ro o2
    simp [RotatedCroppedTable.text_positions, h]
  · intro o2
    simp [RotatedCroppedTable.text_positions]

/-- Witness for C2 at a concrete rotated table (angle 90, rect height
200): each word box is remapped to `(200 − y1, x0, 200 − y0, x1)`. -/
theorem rotated_text_positions_formula_witness :
    sampleRot90.text_positions true false =
      [⟨199, 0, 200, 5, "a"⟩, ⟨197, 0, 198, 5, "b"⟩,
       ⟨194, 0, 196, 5, "c"⟩, ⟨93, 0, 193, 5, "d"⟩] := by
  rw [(rotated_text_positions_formula sampleRot90 false).1 rfl]
  norm_num [CroppedTable.text_positions, sampleRot90, sampleTable, samplePage,
    CroppedTable.init, Rect.is_intersecting, Rect.ofBBox, Rect.height, List.filter_cons]

/-- C9: constructing a `RotatedCroppedTable` with an angle outside
{0, 90, 180, 270} is an error (no object is produced), while any angle
in that set succeeds and stores the angle. -/
theorem rotated_init_validation (page : BasePage) (bbox : ℚ × ℚ × ℚ × ℚ)
    (score angle : ℚ) (label : ℤ) :
    (angle = 0 ∨ angle = 90 ∨ angle = 180 ∨ angle = 270 →
      ∃ t, RotatedCroppedTable.init page bbox score angle label = .ok t ∧ t.angle = angle) ∧
    (¬(angle = 0 ∨ angle = 90 ∨ angle = 180 ∨ angle = 270) →
      RotatedCroppedTable.init page bbox score angle label =
        .error "Only 0, 90, 180, 270 are supported.") := by
  constructor
  · intro h
    exact ⟨_, RotatedCroppedTable.init_ok page bbox score angle label h, rfl⟩
  · intro h
    unfold RotatedCroppedTable.init
    rw [if_neg h]

/-- Witness for C9: angle 90 constructs and stores 90; angle 45 is
rejected with the construction error. -/
theorem rotated_init_validation_witness :
    (∃ t, RotatedCroppedTable.init samplePage (0, 0, 10, 10) 1 90 0 = .ok t ∧ t.angle = 90) ∧
    RotatedCroppedTable.init samplePage (0, 0, 10, 10) 1 45 0 =
      .error "Only 0, 90, 180, 270 are supported." := by
  constructor
  · exact (rotated_init_validation samplePage (0, 0, 10, 10) 1 90 0).1 (by norm_num)
  · exact (rotated_init_validation samplePage (0, 0, 10, 10) 1 45 0).2 (by norm_num)

/-- C10: once a first call to `predicted_word_height` has returned
normally (so the cache holds a value passing the cache-hit assert),
every subsequent call returns that cached value and leaves the table
unchanged, whatever threshold the later call passes: the threshold of
a later call is ignored. -/
theorem predicted_word_height_cache_ignores_threshold (t : CroppedTable) (s1 s2 : ℚ)
    (v1 : Option ℚ) (t1 : CroppedTable)
    (h : t.predicted_word_height s1 = .ok (v1, t1)) :
    t1.predicted_word_height s2 = .ok (v1, t1) := by
  cases hw : t.word_height with
  | some wh =>
    by_cases h0 : wh = some 0
    · simp [CroppedTable.predicted_word_height, hw, h0] at h
    · simp only [CroppedTable.predicted_word_height, hw, if_neg h0,
        Except.ok.injEq, Prod.mk.injEq] at h
      obtain ⟨hv, ht⟩ := h
      subst hv
      subst ht
      simp [CroppedTable.predicted_word_height, hw, h0]
  | none =>
    simp only [CroppedTable.predicted_word_height, hw] at h
    by_cases hemp : (t.text_positions true false).filterMap
        (fun w => if w.y1 - w.y0 > s1 then some (w.y1 - w.y0) else none) = []
    · rw [if_pos hemp] at h
      simp only [Except.ok.injEq, Prod.mk.injEq] at h
      obtain ⟨hv, ht⟩ := h
      subst hv
      subst ht
      simp [CroppedTable.predicted_word_height]
    · rw [if_neg hemp] at h
      by_cases hv0 : (95 / 100 : ℚ) * np_median ((t.text_positions true false).filterMap
          (fun w => if w.y1 - w.y0 > s1 then some (w.y1 - w.y0) else none)) > 0
      · rw [if_pos hv0] at h
        simp only [Except.ok.injEq, Prod.mk.injEq] at h
        obtain ⟨hv, ht⟩ := h
        subst hv
        subst ht
        have hne : (95 / 100 : ℚ) * np_median ((t.text_positions true false).filterMap
            (fun w => if w.y1 - w.y0 > s1 then some (w.y1 - w.y0) else none)) ≠ 0 :=
          ne_of_gt hv0
        simp [CroppedTable.predicted_word_height, hne]
      · rw [if_neg hv0] at h
        exact absurd h (by simp)

/-- Witness for C10: after a first call at threshold 0.1 cached 1.425
on the sample table, a second call at threshold 42 returns the same
cached value and leaves the table unchanged. -/
theorem predicted_word_height_cache_ignores_threshold_witness :
    ({ sampleTable with
        word_height := some (some (1425 / 1000)) }).predicted_word_height 42 =
      .ok (some (1425 / 1000),
        { sampleTable with word_height := some (some (1425 / 1000)) }) := by
  apply predicted_word_height_cache_ignores_threshold sampleTable (1 / 10) 42
  norm_num [CroppedTable.predicted_word_height, CroppedTable.text_positions, sampleTable,
    samplePage, CroppedTable.init, Rect.is_intersecting, Rect.ofBBox, List.filter_cons,
    List.filterMap_cons, np_median, List.insertionSort, List.orderedInsert]
  exact fun hcontra => absurd hcontra (by simp)

theorem filterMap_heights_eq (s : ℚ) (l : List Word) :
    l.filterMap (fun w => if w.y1 - w.y0 > s then some (w.y1 - w.y0) else none) =
      (l.map (fun w => w.y1 - w.y0)).filter (fun x => decide (x > s)) := by
  induction l with
  | nil => rfl
  | cons w ws ih =>
    by_cases hc : w.y1 - w.y0 > s <;> simp [hc, ih]

theorem np_median_pos (l : List ℚ) (hne : l ≠ []) (hpos : ∀ x ∈ l, 0 < x) :
    0 < np_median l := by
  simp only [np_median]
  have hmem : ∀ x ∈ List.insertionSort (fun a b => a ≤ b) l, 0 < x := by
    intro x hx
    exact hpos x ((List.mem_insertionSort _).mp hx)
  have hn : 0 < (List.insertionSort (fun a b => a ≤ b) l).length := by
    rw [(List.perm_insertionSort (fun a b => a ≤ b) l).length_eq]
    exact List.length_pos.mpr hne
  by_cases hodd : (List.insertionSort (fun a b => a ≤ b) l).length % 2 = 1
  · rw [if_pos hodd]
    have hlt : (List.insertionSort (fun a b => a ≤ b) l).length / 2 <
        (List.insertionSort (fun a b => a ≤ b) l).length :=
      Nat.div_lt_self hn one_lt_two
    rw [List.getD_eq_getElem _ 0 hlt]
    exact hmem _ (List.getElem_mem _)
  · rw [if_neg hodd]
    have hlt2 : (List.insertionSort (fun a b => a ≤ b) l).length / 2 <
        (List.insertionSort (fun a b => a ≤ b) l).length :=
      Nat.div_lt_self hn one_lt_two
    have hlt1 : (List.insertionSort (fun a b => a ≤ b) l).length / 2 - 1 <
        (List.insertionSort (fun a b => a ≤ b) l).length :=
      Nat.lt_of_le_of_lt (Nat.sub_le _ _) hlt2
    rw [List.getD_eq_getElem _ 0 hlt1, List.getD_eq_getElem _ 0 hlt2]
    have p1 := hmem _ (List.getElem_mem hlt1)
    have p2 := hmem _ (List.getElem_mem hlt2)
    linarith

/-- C5: the first call to `predicted_word_height` with a nonnegative
threshold collects the heights of the offset-removed text positions
strictly greater than the threshold and returns (and caches)
`0.95 × median` of them, or the not-a-number sentinel when none
qualify; the `assert self._word_height > 0` passes because every
qualifying height exceeds the nonnegative threshold. -/
theorem predicted_word_height_first_call (t : CroppedTable) (s : ℚ)
    (h : t.word_height = none) (hs : 0 ≤ s) :
    t.predicted_word_height s =
      if ((t.text_positions true false).map (fun w => w.y1 - w.y0)).filter
          (fun x => decide (x > s)) = [] then
        .ok (none, { t with word_height := some none })
      else
        .ok (some ((95 / 100) *
            np_median (((t.text_positions true false).map (fun w => w.y1 - w.y0)).filter
              (fun x => decide (x > s)))),
          { t with
              word_height := some (some ((95 / 100) *
                np_median (((t.text_positions true false).map (fun w => w.y1 - w.y0)).filter
                  (fun x => decide (x > s))))) }) := by
  have hfm := filterMap_heights_eq s (t.text_positions true false)
  simp only [CroppedTable.predicted_word_height, h, hfm]
  split
  · rfl
  · next hne =>
    have hpos : ∀ x ∈ ((t.text_positions true false).map (fun w => w.y1 - w.y0)).filter
        (fun x => decide (x > s)), 0 < x := by
      intro x hx
      have hxs : x > s := of_decide_eq_true (List.mem_filter.mp hx).2
      linarith
    have hmed := np_median_pos _ hne hpos
    rw [if_pos (mul_pos (by norm_num) hmed)]

/-- Witness for C5: the sample table's qualifying heights at threshold
`0.1` are `[1, 1, 2, 100]`, so the first call returns and caches
`0.95 × 1.5 = 1.425`. -/
theorem predicted_word_height_first_call_witness :
    sampleTable.predicted_word_height (1 / 10) =
      .ok (some (1425 / 1000),
        { sampleTable with word_height := some (some (1425 / 1000)) }) := by
  rw [predicted_word_height_first_call sampleTable (1 / 10) rfl (by norm_num)]
  norm_num [CroppedTable.text_positions, sampleTable, samplePage, CroppedTable.init,
    Rect.is_intersecting, Rect.ofBBox, List.filter_cons, np_median,
    List.insertionSort, List.orderedInsert]
  exact fun hcontra => absurd hcontra (by simp)

/-- C6 (code bug): the cached captions are returned even for a call
with a non-default `margin`, because the cache-hit test is
`margin is None or line_spacing == 2.5` (an `or` where the docstring
and the inline comment promise "only cache if all default args"): with
a non-`None` margin and the default line spacing, the finder is never
consulted (the result is the cached list whatever finder is passed). -/
theorem captions_cache_hit_with_nondefault_margin
    (find_captions : Option (ℚ × ℚ × ℚ × ℚ) → ℚ → List String) :
    (({ sampleTable with captionsCache := some ["above", "below"] }).captions
        find_captions (some (10, 10, 10, 10)) (5 / 2)).1 = ["above", "below"] := by
  simp [CroppedTable.captions, sampleTable, CroppedTable.init]

/-- C7: `TableDetector.extract` produces one region per detection in
model output order: label 1 yields a rotated table with angle 90 (label
preserved), any other label a plain table with that label, each
carrying the detection's bbox and score. -/
theorem extract_one_region_per_detection (page : BasePage) (results : List Detection) :
    (TableDetector.extract page results).length = results.length ∧
    ∀ i : Fin results.length,
      ((results.get i).label = 1 →
        (TableDetector.extract page results).get
            ⟨i.val, by simp [TableDetector.extract, i.isLt]⟩ =
          Table.rotated
            { toCroppedTable :=
                CroppedTable.init page (results.get i).bbox (results.get i).score
                  (results.get i).label,
              angle := 90 }) ∧
      ((results.get i).label ≠ 1 →
        (TableDetector.extract page results).get
            ⟨i.val, by simp [TableDetector.extract, i.isLt]⟩ =
          Table.plain
            (CroppedTable.init page (results.get i).bbox (results.get i).score
              (results.get i).label)) := by
  refine ⟨by simp [TableDetector.extract], ?_⟩
  intro i
  constructor
  · intro h
    simp only [List.get_eq_getElem] at h
    simp [TableDetector.extract, List.get_eq_getElem, List.getElem_map, h]
  · intro h
    simp only [List.get_eq_getElem] at h
    simp [TableDetector.extract, List.get_eq_getElem, List.getElem_map, h]

/-- Witness for C7: of two sample detections, the first (label 1)
becomes a rotated region with angle 90 and the second (label 0) a plain
region with label 0. -/
theorem extract_one_region_per_detection_witness :
    (TableDetector.extract samplePage sampleDetections).get ⟨0, by decide⟩ =
      Table.rotated
        { toCroppedTable := CroppedTable.init samplePage (0, 0, 1, 1) (19 / 20) 1,
          angle := 90 } ∧
    (TableDetector.extract samplePage sampleDetections).get ⟨1, by decide⟩ =
      Table.plain (CroppedTable.init samplePage (2, 2, 3, 3) (1 / 2) 0) := by
  have h := extract_one_region_per_detection samplePage sampleDetections
  exact ⟨(h.2 ⟨0, by decide⟩).1 rfl, (h.2 ⟨1, by decide⟩).2 (by decide)⟩

/-- C3: deserializing a table's serialized record with the same page
yields an object with identical rect, confidence score, label and (for
rotated tables) angle; the presence of the `angle` field is the sole
discriminator: a record without it always deserializes to a plain
table, a record with it never to a plain table. -/
theorem serialization_round_trip (t : CroppedTable) (r : RotatedCroppedTable)
    (hr : r.angle = 0 ∨ r.angle = 90 ∨ r.angle = 180 ∨ r.angle = 270)
    (d : TableDict) (page : BasePage) :
    (∃ t2, CroppedTable.from_dict t.to_dict t.page = .ok (Table.plain t2) ∧
      t2.rect = t.rect ∧ t2.confidence_score = t.confidence_score ∧ t2.label = t.label) ∧
    (∃ r2, CroppedTable.from_dict r.to_dict r.page = .ok (Table.rotated r2) ∧
      r2.rect = r.rect ∧ r2.confidence_score = r.confidence_score ∧
      r2.label = r.label ∧ r2.angle = r.angle) ∧
    (d.angle = none → ∃ t2, CroppedTable.from_dict d page = .ok (Table.plain t2)) ∧
    (∀ a, d.angle = some a → ∀ u, CroppedTable.from_dict d page = .ok u →
      ∃ r2, u = Table.rotated r2) := by
  refine ⟨?_, ?_, ?_, ?_⟩
  · exact ⟨_, rfl, Rect.ofBBox_bbox t.rect, rfl, rfl⟩
  · have hinit :=
      RotatedCroppedTable.init_ok r.page r.rect.bbox r.confidence_score r.angle r.label hr
    have heq : CroppedTable.from_dict r.to_dict r.page =
        .ok (Table.rotated
          { toCroppedTable :=
              { CroppedTable.init r.page r.rect.bbox r.confidence_score r.label with
                  captionsCache := some [] },
            angle := r.angle }) := by
      show (RotatedCroppedTable.init r.page r.rect.bbox r.confidence_score r.angle
          r.label).map _ = _
      rw [hinit]
      rfl
    exact ⟨_, heq, Rect.ofBBox_bbox r.rect, rfl, rfl, rfl⟩
  · intro h
    obtain ⟨f, pn, bb, cs, lb, ang, cap⟩ := d
    simp only at h
    subst h
    exact ⟨_, rfl⟩
  · intro a ha u hu
    obtain ⟨f, pn, bb, cs, lb, ang, cap⟩ := d
    simp only at ha
    subst ha
    simp only [CroppedTable.from_dict] at hu
    cases hinit : RotatedCroppedTable.init page bb cs a lb with
    | ok rt =>
      rw [hinit] at hu
      simp only [Except.map, Except.ok.injEq] at hu
      exact ⟨_, hu.symm⟩
    | error e =>
      rw [hinit] at hu
      simp [Except.map] at hu

/-- Witness for C3: the sample plain table and the sample rotated
table (angle 90) both survive the serialization round trip. -/
theorem serialization_round_trip_witness :
    (∃ t2, CroppedTable.from_dict sampleTable.to_dict sampleTable.page =
        .ok (Table.plain t2) ∧
      t2.rect = sampleTable.rect ∧ t2.confidence_score = sampleTable.confidence_score ∧
      t2.label = sampleTable.label) ∧
    (∃ r2, CroppedTable.from_dict sampleRot90.to_dict sampleRot90.page =
        .ok (Table.rotated r2) ∧ r2.angle = 90) := by
  have h := serialization_round_trip sampleTable sampleRot90 (Or.inr (Or.inl rfl))
    sampleDict samplePage
  refine ⟨h.1, ?_⟩
  obtain ⟨r2, heq, _, _, _, hang⟩ := h.2.1
  exact ⟨r2, heq, hang⟩
